import Mathlib

/-
Formal model of the virae instancing and coordinate-transform core
(src/src/types.rs, src/src/geo.rs, src/src/window.rs).

Modelling conventions:
- f32 values are modelled as exact rationals.
- u32 values are natural numbers below 2^32; u32 arithmetic wraps modulo
  2^32 (release-build semantics), written with an explicit u32 helper.
- Operations that can panic in Rust (slice index out of bounds, division
  by zero, a zero step given to an iterator) are modelled as Option,
  returning none where Rust panics.
- GPU buffers are modelled as lists of packed records; a queue write at
  byte offset i * size_of::<InstanceData>() is a list update at index i.
-/

namespace Virae

/-- Two f32 components, exact rationals (glam Vec2). -/
structure Vec2 where
  x : ℚ
  y : ℚ
deriving DecidableEq

/-- Three f32 components (glam Vec3). -/
structure Vec3 where
  x : ℚ
  y : ℚ
  z : ℚ
deriving DecidableEq

/-- Four f32 components (glam Vec4). -/
structure Vec4 where
  x : ℚ
  y : ℚ
  z : ℚ
  w : ℚ
deriving DecidableEq

/-- Quaternion (glam Quat). -/
structure Quat where
  x : ℚ
  y : ℚ
  z : ℚ
  w : ℚ
deriving DecidableEq

/-- Quat.IDENTITY. -/
def quatIdentity : Quat := ⟨0, 0, 0, 1⟩

/-- Column-major 4x4 matrix (glam Mat4: columns xAxis, yAxis, zAxis, wAxis). -/
structure Mat4 where
  xAxis : Vec4
  yAxis : Vec4
  zAxis : Vec4
  wAxis : Vec4
deriving DecidableEq

/-- Componentwise scalar multiple of a Vec4. -/
def Vec4.scaleBy (v : Vec4) (s : ℚ) : Vec4 := ⟨v.x * s, v.y * s, v.z * s, v.w * s⟩

/-- Componentwise sum of two Vec4. -/
def Vec4.add (v u : Vec4) : Vec4 := ⟨v.x + u.x, v.y + u.y, v.z + u.z, v.w + u.w⟩

/-- Rotation axes of a quaternion (glam Mat4::quat_to_axes). -/
def quatToAxes (q : Quat) : Vec4 × Vec4 × Vec4 :=
  let x2 := q.x + q.x
  let y2 := q.y + q.y
  let z2 := q.z + q.z
  let xx := q.x * x2
  let xy := q.x * y2
  let xz := q.x * z2
  let yy := q.y * y2
  let yz := q.y * z2
  let zz := q.z * z2
  let wx := q.w * x2
  let wy := q.w * y2
  let wz := q.w * z2
  (⟨1 - (yy + zz), xy + wz, xz - wy, 0⟩,
   ⟨xy - wz, 1 - (xx + zz), yz + wx, 0⟩,
   ⟨xz + wy, yz - wx, 1 - (xx + yy), 0⟩)

/-- glam Mat4::from_scale_rotation_translation: columns are the rotation axes
scaled per axis, with the translation in the w column. -/
def Mat4.fromScaleRotationTranslation (scale : Vec3) (rotation : Quat) (translation : Vec3) : Mat4 :=
  let axes := quatToAxes rotation
  { xAxis := axes.1.scaleBy scale.x
    yAxis := axes.2.1.scaleBy scale.y
    zAxis := axes.2.2.scaleBy scale.z
    wAxis := ⟨translation.x, translation.y, translation.z, 1⟩ }

/-- glam Mat4::mul_vec4, the linear map applied to a column vector. -/
def Mat4.mulVec4 (m : Mat4) (v : Vec4) : Vec4 :=
  (((m.xAxis.scaleBy v.x).add (m.yAxis.scaleBy v.y)).add (m.zAxis.scaleBy v.z)).add
    (m.wAxis.scaleBy v.w)

/-- glam Mat4::orthographic_lh. -/
def Mat4.orthographicLh (left right bottom top near far : ℚ) : Mat4 :=
  let rcpWidth := 1 / (right - left)
  let rcpHeight := 1 / (top - bottom)
  let r := 1 / (far - near)
  { xAxis := ⟨rcpWidth + rcpWidth, 0, 0, 0⟩
    yAxis := ⟨0, rcpHeight + rcpHeight, 0, 0⟩
    zAxis := ⟨0, 0, r, 0⟩
    wAxis := ⟨-(left + right) * rcpWidth, -(top + bottom) * rcpHeight, -r * near, 1⟩ }

/-- Two u32 components (glam UVec2); field values are meant to be below 2^32. -/
structure UVec2 where
  x : Nat
  y : Nat
deriving DecidableEq

/-- u32 wrapping (release-build semantics for u32 arithmetic). -/
def u32 (n : Nat) : Nat := n % 2 ^ 32

/-- types.rs PixelRect: a pixel-space rectangle with the reference extent it
was measured against. -/
structure PixelRect where
  xy : UVec2
  wh : UVec2
  extent : UVec2
deriving DecidableEq

/-- types.rs ComponentTransform. -/
structure ComponentTransform where
  pixel_rect : Option PixelRect
  location : Vec3
  rotation : Quat
  scale : Vec3
deriving DecidableEq

/-- Default for ComponentTransform in types.rs. -/
def componentTransformDefault : ComponentTransform :=
  { pixel_rect := none
    location := ⟨0, 0, 0⟩
    rotation := quatIdentity
    scale := ⟨1, 1, 1⟩ }

/-- ComponentTransform::to_mat4. -/
def ComponentTransform.to_mat4 (t : ComponentTransform) : Mat4 :=
  Mat4.fromScaleRotationTranslation t.scale t.rotation t.location

/-- ComponentTransform::tex_transform_from_pixel_rect. -/
def ComponentTransform.tex_transform_from_pixel_rect (pixel_rect : PixelRect) : ComponentTransform :=
  let xy : Vec2 := ⟨(pixel_rect.xy.x : ℚ), (pixel_rect.xy.y : ℚ)⟩
  let wh : Vec2 := ⟨(pixel_rect.wh.x : ℚ), (pixel_rect.wh.y : ℚ)⟩
  let extent : Vec2 := ⟨(pixel_rect.extent.x : ℚ), (pixel_rect.extent.y : ℚ)⟩
  { pixel_rect := some pixel_rect
    location := ⟨xy.x / extent.x, xy.y / extent.y, 0⟩
    rotation := quatIdentity
    scale := ⟨wh.x / extent.x, wh.y / extent.y, 1⟩ }

/-- ComponentTransform::unit_square_transform_from_pixel_rect. -/
def ComponentTransform.unit_square_transform_from_pixel_rect (pixel_rect : PixelRect) :
    ComponentTransform :=
  let xy : Vec2 := ⟨(pixel_rect.xy.x : ℚ), (pixel_rect.xy.y : ℚ)⟩
  let wh : Vec2 := ⟨(pixel_rect.wh.x : ℚ), (pixel_rect.wh.y : ℚ)⟩
  let extent : Vec2 := ⟨(pixel_rect.extent.x : ℚ), (pixel_rect.extent.y : ℚ)⟩
  { pixel_rect := some pixel_rect
    location := ⟨(xy.x / extent.x) * 2 - 1, 1 - (xy.y / extent.y) * 2, 0⟩
    rotation := quatIdentity
    scale := ⟨(wh.x / extent.x) * 2, (wh.y / extent.y) * 2, 1⟩ }

/-- Claim C1: for every pixel rect with positive extent, the screen transform has
identity rotation, translation ((xy.x/extent.x)*2 - 1, 1 - (xy.y/extent.y)*2, 0) and
scale ((wh.x/extent.x)*2, (wh.y/extent.y)*2, 1), and its TRS matrix maps the unit
quad corner (0,0,0) to (2*xy.x/extent.x - 1, 1 - 2*xy.y/extent.y). -/
theorem c1_screen_transform_exact (r : PixelRect)
    (hx : 0 < r.extent.x) (hy : 0 < r.extent.y) :
    (ComponentTransform.unit_square_transform_from_pixel_rect r).rotation = quatIdentity ∧
    (ComponentTransform.unit_square_transform_from_pixel_rect r).location =
      ⟨((r.xy.x : ℚ) / (r.extent.x : ℚ)) * 2 - 1,
        1 - ((r.xy.y : ℚ) / (r.extent.y : ℚ)) * 2, 0⟩ ∧
    (ComponentTransform.unit_square_transform_from_pixel_rect r).scale =
      ⟨((r.wh.x : ℚ) / (r.extent.x : ℚ)) * 2, ((r.wh.y : ℚ) / (r.extent.y : ℚ)) * 2, 1⟩ ∧
    Mat4.mulVec4 (ComponentTransform.unit_square_transform_from_pixel_rect r).to_mat4
        ⟨0, 0, 0, 1⟩ =
      ⟨2 * (r.xy.x : ℚ) / (r.extent.x : ℚ) - 1, 1 - 2 * (r.xy.y : ℚ) / (r.extent.y : ℚ),
        0, 1⟩ := by
  refine ⟨rfl, rfl, rfl, ?_⟩
  simp only [ComponentTransform.unit_square_transform_from_pixel_rect,
    ComponentTransform.to_mat4, Mat4.fromScaleRotationTranslation, quatToAxes, quatIdentity,
    Mat4.mulVec4, Vec4.scaleBy, Vec4.add, Vec4.mk.injEq]
  refine ⟨by ring, by ring, by ring, by ring⟩

/-- Pixel rect used to witness C1. -/
def rectC1 : PixelRect := ⟨⟨2, 3⟩, ⟨4, 5⟩, ⟨8, 8⟩⟩

/-- Witness for C1 at the concrete rect rectC1. -/
theorem c1_screen_transform_exact_witness :
    (ComponentTransform.unit_square_transform_from_pixel_rect rectC1).rotation = quatIdentity ∧
    (ComponentTransform.unit_square_transform_from_pixel_rect rectC1).location =
      ⟨((rectC1.xy.x : ℚ) / (rectC1.extent.x : ℚ)) * 2 - 1,
        1 - ((rectC1.xy.y : ℚ) / (rectC1.extent.y : ℚ)) * 2, 0⟩ ∧
    (ComponentTransform.unit_square_transform_from_pixel_rect rectC1).scale =
      ⟨((rectC1.wh.x : ℚ) / (rectC1.extent.x : ℚ)) * 2,
        ((rectC1.wh.y : ℚ) / (rectC1.extent.y : ℚ)) * 2, 1⟩ ∧
    Mat4.mulVec4 (ComponentTransform.unit_square_transform_from_pixel_rect rectC1).to_mat4
        ⟨0, 0, 0, 1⟩ =
      ⟨2 * (rectC1.xy.x : ℚ) / (rectC1.extent.x : ℚ) - 1,
        1 - 2 * (rectC1.xy.y : ℚ) / (rectC1.extent.y : ℚ), 0, 1⟩ :=
  c1_screen_transform_exact rectC1 (by decide) (by decide)

/-- Claim C8: for a rect fully inside the atlas bounds, the UV transform has the
stated translation and scale with identity rotation, and every x and y
translate/scale component lies within the interval from 0 to 1. -/
theorem c8_tex_transform_bounds (r : PixelRect)
    (hx : 0 < r.extent.x) (hy : 0 < r.extent.y)
    (hwx : r.xy.x + r.wh.x ≤ r.extent.x) (hwy : r.xy.y + r.wh.y ≤ r.extent.y) :
    (ComponentTransform.tex_transform_from_pixel_rect r).rotation = quatIdentity ∧
    (ComponentTransform.tex_transform_from_pixel_rect r).location =
      ⟨(r.xy.x : ℚ) / (r.extent.x : ℚ), (r.xy.y : ℚ) / (r.extent.y : ℚ), 0⟩ ∧
    (ComponentTransform.tex_transform_from_pixel_rect r).scale =
      ⟨(r.wh.x : ℚ) / (r.extent.x : ℚ), (r.wh.y : ℚ) / (r.extent.y : ℚ), 1⟩ ∧
    (0 ≤ (ComponentTransform.tex_transform_from_pixel_rect r).location.x ∧
      (ComponentTransform.tex_transform_from_pixel_rect r).location.x ≤ 1) ∧
    (0 ≤ (ComponentTransform.tex_transform_from_pixel_rect r).location.y ∧
      (ComponentTransform.tex_transform_from_pixel_rect r).location.y ≤ 1) ∧
    (0 ≤ (ComponentTransform.tex_transform_from_pixel_rect r).scale.x ∧
      (ComponentTransform.tex_transform_from_pixel_rect r).scale.x ≤ 1) ∧
    (0 ≤ (ComponentTransform.tex_transform_from_pixel_rect r).scale.y ∧
      (ComponentTransform.tex_transform_from_pixel_rect r).scale.y ≤ 1) := by
  have hexQ : (0 : ℚ) < (r.extent.x : ℚ) := by exact_mod_cast hx
  have heyQ : (0 : ℚ) < (r.extent.y : ℚ) := by exact_mod_cast hy
  have hxyx : (r.xy.x : ℚ) ≤ (r.extent.x : ℚ) := by
    exact_mod_cast le_trans (Nat.le_add_right _ _) hwx
  have hxyy : (r.xy.y : ℚ) ≤ (r.extent.y : ℚ) := by
    exact_mod_cast le_trans (Nat.le_add_right _ _) hwy
  have hwhx : (r.wh.x : ℚ) ≤ (r.extent.x : ℚ) := by
    exact_mod_cast le_trans (Nat.le_add_left _ _) hwx
  have hwhy : (r.wh.y : ℚ) ≤ (r.extent.y : ℚ) := by
    exact_mod_cast le_trans (Nat.le_add_left _ _) hwy
  refine ⟨rfl, rfl, rfl, ?_, ?_, ?_, ?_⟩ <;>
    constructor <;>
    first
      | exact div_nonneg (Nat.cast_nonneg _) (le_of_lt (by assumption))
      | exact (div_le_one (by assumption)).mpr (by assumption)

/-- Pixel rect used to witness C8. -/
def rectC8 : PixelRect := ⟨⟨2, 4⟩, ⟨6, 4⟩, ⟨8, 8⟩⟩

/-- Witness for C8 at the concrete rect rectC8. -/
theorem c8_tex_transform_bounds_witness :
    (ComponentTransform.tex_transform_from_pixel_rect rectC8).rotation = quatIdentity ∧
    (ComponentTransform.tex_transform_from_pixel_rect rectC8).location =
      ⟨(rectC8.xy.x : ℚ) / (rectC8.extent.x : ℚ), (rectC8.xy.y : ℚ) / (rectC8.extent.y : ℚ), 0⟩ ∧
    (ComponentTransform.tex_transform_from_pixel_rect rectC8).scale =
      ⟨(rectC8.wh.x : ℚ) / (rectC8.extent.x : ℚ), (rectC8.wh.y : ℚ) / (rectC8.extent.y : ℚ), 1⟩ ∧
    (0 ≤ (ComponentTransform.tex_transform_from_pixel_rect rectC8).location.x ∧
      (ComponentTransform.tex_transform_from_pixel_rect rectC8).location.x ≤ 1) ∧
    (0 ≤ (ComponentTransform.tex_transform_from_pixel_rect rectC8).location.y ∧
      (ComponentTransform.tex_transform_from_pixel_rect rectC8).location.y ≤ 1) ∧
    (0 ≤ (ComponentTransform.tex_transform_from_pixel_rect rectC8).scale.x ∧
      (ComponentTransform.tex_transform_from_pixel_rect rectC8).scale.x ≤ 1) ∧
    (0 ≤ (ComponentTransform.tex_transform_from_pixel_rect rectC8).scale.y ∧
      (ComponentTransform.tex_transform_from_pixel_rect rectC8).scale.y ≤ 1) :=
  c8_tex_transform_bounds rectC8 (by decide) (by decide) (by decide) (by decide)

/-- Iteration count of the Rust loop for _ in (0..n).step_by(s), with explicit fuel
so the function is structurally recursive; n itself is always sufficient fuel since
every iteration removes at least one element of the range when s is positive. -/
def stepCountFuel (fuel n s : Nat) : Nat :=
  match fuel with
  | 0 => 0
  | f + 1 => if s = 0 ∨ n = 0 then 0 else 1 + stepCountFuel f (n - s) s

/-- Iteration count of for _ in (0..n).step_by(s); the row-count loop in
TextureSheet::cluster_sub_transform. A zero s makes Rust step_by panic and is
guarded at the call site. -/
def stepCount (n s : Nat) : Nat := stepCountFuel n n s

/-- The iterative step count is the ceiling of n / s, not the floor. -/
theorem stepCountFuel_eq_ceil (fuel s : Nat) (hs : 0 < s) :
    ∀ n, n ≤ fuel → stepCountFuel fuel n s = (n + s - 1) / s := by
  induction fuel with
  | zero =>
    intro n hn
    have hn0 : n = 0 := by omega
    subst hn0
    exact (Nat.div_eq_of_lt (by omega)).symm
  | succ fuel ih =>
    intro n hn
    show (if s = 0 ∨ n = 0 then 0 else 1 + stepCountFuel fuel (n - s) s) = (n + s - 1) / s
    split
    · rename_i h
      rcases h with h | h
      · exact absurd h (by omega)
      · subst h
        exact (Nat.div_eq_of_lt (by omega)).symm
    · rename_i h
      push_neg at h
      have hn0 : 0 < n := Nat.pos_of_ne_zero h.2
      rw [ih (n - s) (by omega)]
      have key : (n + s - 1) / s = (n - 1) / s + 1 := by
        rw [show n + s - 1 = n - 1 + s by omega, Nat.add_div_right _ hs]
      rcases le_or_lt s n with hsn | hns
      · rw [show n - s + s - 1 = n - 1 by omega, key]
        omega
      · rw [show n - s + s - 1 = s - 1 by omega, key,
          Nat.div_eq_of_lt (show s - 1 < s by omega),
          Nat.div_eq_of_lt (show n - 1 < s by omega)]

/-- The step count equals ceiling division for a positive step. -/
theorem stepCount_eq_ceil (n s : Nat) (hs : 0 < s) : stepCount n s = (n + s - 1) / s :=
  stepCountFuel_eq_ceil n s hs n le_rfl

/-- types.rs TextureSheetClusterDefinition. -/
structure TextureSheetClusterDefinition where
  label : String
  offset : UVec2
  cluster_size : UVec2
  sub_size : UVec2
  spacing : UVec2
deriving DecidableEq

/-- types.rs TextureSheetDefinition. -/
structure TextureSheetDefinition where
  path : String
  clusters : List TextureSheetClusterDefinition
deriving DecidableEq

/-- types.rs TextureSheet; the GPU texture, sampler and view handles carry no
data relevant to addressing and are omitted. -/
structure TextureSheet where
  sheet_info : TextureSheetDefinition
  dimensions : UVec2
deriving DecidableEq

/-- The horizontal grid step sub_size.x + spacing.x of a cluster (u32 addition). -/
def clusterStepX (c : TextureSheetClusterDefinition) : Nat := u32 (c.sub_size.x + c.spacing.x)

/-- The count the source calls rc: the number of iterations of
for _ in (0..cluster_size.x).step_by(sub_size.x + spacing.x), used as the column
count to split the linear sub-index. -/
def clusterColumnCount (c : TextureSheetClusterDefinition) : Nat :=
  stepCount c.cluster_size.x (clusterStepX c)

/-- The column count as the spec words it: floor division would be
cluster_size.x / (sub_size.x + spacing.x); the ceiling form below is what the
iterative count actually equals. -/
def specCeilColumns (c : TextureSheetClusterDefinition) : Nat :=
  (c.cluster_size.x + (c.sub_size.x + c.spacing.x) - 1) / (c.sub_size.x + c.spacing.x)

/-- TextureSheet::cluster_sub_transform. Rust panics become none: an out-of-range
cluster index, a zero step given to step_by, and a zero column count used as a
divisor. u32 additions and multiplications wrap. -/
def TextureSheet.cluster_sub_transform (sheet : TextureSheet) (cluster_index sub_index : Nat) :
    Option ComponentTransform :=
  match sheet.sheet_info.clusters.get? cluster_index with
  | none => none
  | some c =>
    if clusterStepX c = 0 then none
    else
      let rc := clusterColumnCount c
      if rc = 0 then none
      else
        let si := u32 sub_index
        let row_index := si / rc
        let col_index := si % rc
        let x_offset := u32 (c.offset.x + u32 (col_index * clusterStepX c))
        let y_offset := u32 (c.offset.y + u32 (row_index * u32 (c.sub_size.y + c.spacing.y)))
        some (ComponentTransform.tex_transform_from_pixel_rect
          ⟨⟨x_offset, y_offset⟩, c.sub_size, sheet.dimensions⟩)

/-- A cluster whose width 100 is not a multiple of the step 16: the iterative
count gives 7 columns while floor division gives 6. -/
def clusterC2 : TextureSheetClusterDefinition := ⟨"uneven", ⟨0, 0⟩, ⟨100, 48⟩, ⟨16, 16⟩, ⟨0, 0⟩⟩

/-- Counterexample to C2 as stated: for the cluster with cluster_size.x = 100 and
step 16, the column count the code uses is not floor(cluster_size.x / step)
(it is 7, the ceiling, while the floor is 6). -/
theorem c2_floor_counterexample :
    clusterColumnCount clusterC2 ≠
      clusterC2.cluster_size.x / (clusterC2.sub_size.x + clusterC2.spacing.x) := by
  decide

/-- Claim C2 (amended): the column count is the ceiling, not the floor, of
cluster_size.x / (sub_size.x + spacing.x); with that column count the sub-index
splits row-major (row = sub_index / columns, col = sub_index % columns) and the
sub-rectangle origin is offset + (col * (sub_size.x + spacing.x),
row * (sub_size.y + spacing.y)), provided cluster_size.x is positive and the u32
arithmetic does not wrap. -/
theorem c2_column_count_and_origin (sheet : TextureSheet) (ci si : Nat)
    (c : TextureSheetClusterDefinition)
    (hc : sheet.sheet_info.clusters.get? ci = some c)
    (hs : 0 < c.sub_size.x + c.spacing.x)
    (hsU : c.sub_size.x + c.spacing.x < 2 ^ 32)
    (hsi : si < 2 ^ 32)
    (hcx : 0 < c.cluster_size.x)
    (hsyU : c.sub_size.y + c.spacing.y < 2 ^ 32)
    (hox : c.offset.x + si % specCeilColumns c * (c.sub_size.x + c.spacing.x) < 2 ^ 32)
    (hoy : c.offset.y + si / specCeilColumns c * (c.sub_size.y + c.spacing.y) < 2 ^ 32) :
    clusterColumnCount c = specCeilColumns c ∧
    sheet.cluster_sub_transform ci si =
      some (ComponentTransform.tex_transform_from_pixel_rect
        ⟨⟨c.offset.x + si % specCeilColumns c * (c.sub_size.x + c.spacing.x),
           c.offset.y + si / specCeilColumns c * (c.sub_size.y + c.spacing.y)⟩,
          c.sub_size, sheet.dimensions⟩) := by
  have hstep : clusterStepX c = c.sub_size.x + c.spacing.x := Nat.mod_eq_of_lt hsU
  have hrc : clusterColumnCount c = specCeilColumns c := by
    rw [clusterColumnCount, hstep, stepCount_eq_ceil _ _ hs, specCeilColumns]
  have hrcpos : 0 < specCeilColumns c := by
    rw [specCeilColumns]
    exact (Nat.one_le_div_iff hs).mpr (by omega)
  refine ⟨hrc, ?_⟩
  rw [TextureSheet.cluster_sub_transform, hc]
  simp only [hstep, hrc]
  rw [if_neg (by omega), if_neg (by omega)]
  have hsiu : u32 si = si := Nat.mod_eq_of_lt hsi
  have hsy : u32 (c.sub_size.y + c.spacing.y) = c.sub_size.y + c.spacing.y :=
    Nat.mod_eq_of_lt hsyU
  have hmulx : u32 (si % specCeilColumns c * (c.sub_size.x + c.spacing.x)) =
      si % specCeilColumns c * (c.sub_size.x + c.spacing.x) :=
    Nat.mod_eq_of_lt (by omega)
  have hmuly : u32 (si / specCeilColumns c * (c.sub_size.y + c.spacing.y)) =
      si / specCeilColumns c * (c.sub_size.y + c.spacing.y) :=
    Nat.mod_eq_of_lt (by omega)
  simp only [hsiu, hsy, hmulx, hmuly]
  rw [show u32 (c.offset.x + si % specCeilColumns c * (c.sub_size.x + c.spacing.x)) =
      c.offset.x + si % specCeilColumns c * (c.sub_size.x + c.spacing.x) from
    Nat.mod_eq_of_lt hox]
  rw [show u32 (c.offset.y + si / specCeilColumns c * (c.sub_size.y + c.spacing.y)) =
      c.offset.y + si / specCeilColumns c * (c.sub_size.y + c.spacing.y) from
    Nat.mod_eq_of_lt hoy]

/-- The cluster of claim C9: cluster_size (128,48), sub_size (16,16), no spacing. -/
def clusterC9 : TextureSheetClusterDefinition := ⟨"grid", ⟨0, 0⟩, ⟨128, 48⟩, ⟨16, 16⟩, ⟨0, 0⟩⟩

/-- A sheet holding clusterC9 on a 128x48 image. -/
def sheetC9 : TextureSheet := ⟨⟨"atlas.png", [clusterC9]⟩, ⟨128, 48⟩⟩

/-- A sheet holding the uneven clusterC2 on a 128x48 image, for the C2 witness. -/
def sheetC2 : TextureSheet := ⟨⟨"atlas.png", [clusterC2]⟩, ⟨128, 48⟩⟩

/-- Witness for the amended C2 at the concrete uneven sheet: 7 columns, and
sub-index 9 lands at row 1, column 2, origin (32,16). -/
theorem c2_column_count_and_origin_witness :
    clusterColumnCount clusterC2 = specCeilColumns clusterC2 ∧
    sheetC2.cluster_sub_transform 0 9 =
      some (ComponentTransform.tex_transform_from_pixel_rect
        ⟨⟨clusterC2.offset.x + 9 % specCeilColumns clusterC2 *
            (clusterC2.sub_size.x + clusterC2.spacing.x),
           clusterC2.offset.y + 9 / specCeilColumns clusterC2 *
            (clusterC2.sub_size.y + clusterC2.spacing.y)⟩,
          clusterC2.sub_size, sheetC2.dimensions⟩) :=
  c2_column_count_and_origin sheetC2 0 9 clusterC2 (by decide) (by decide) (by decide)
    (by decide) (by decide) (by decide) (by decide) (by decide)

/-- Claim C7 (amended): an out-of-range cluster index fails, but the sub-index is
never range-checked: with an in-range cluster, a positive step and a positive
column count, every sub-index (even one at or beyond the grid cell count)
produces a transform normally. -/
theorem c7_index_checks :
    (∀ (sheet : TextureSheet) (ci si : Nat),
      sheet.sheet_info.clusters.length ≤ ci → sheet.cluster_sub_transform ci si = none) ∧
    (∀ (sheet : TextureSheet) (ci si : Nat) (c : TextureSheetClusterDefinition),
      sheet.sheet_info.clusters.get? ci = some c → clusterStepX c ≠ 0 →
      clusterColumnCount c ≠ 0 → (sheet.cluster_sub_transform ci si).isSome = true) := by
  constructor
  · intro sheet ci si h
    rw [TextureSheet.cluster_sub_transform, List.get?_eq_none.mpr h]
  · intro sheet ci si c hc hstep hrc
    rw [TextureSheet.cluster_sub_transform, hc]
    simp only [if_neg hstep, if_neg hrc, Option.isSome_some]

/-- Witness for C7: on the concrete sheet with one 8x3 cluster, cluster index 5 is
rejected while sub-index 24 (the full grid cell count, outside the grid) still
returns a transform. -/
theorem c7_index_checks_witness :
    sheetC9.cluster_sub_transform 5 0 = none ∧
    (sheetC9.cluster_sub_transform 0 24).isSome = true :=
  ⟨c7_index_checks.1 sheetC9 5 0 (by decide),
   c7_index_checks.2 sheetC9 0 24 clusterC9 (by decide) (by decide) (by decide)⟩

/-- Counterexample to C7 as stated: sub-index 24 is not less than the grid cell
count (8 columns times 3 rows = 24) of the only cluster of sheetC9, yet
cluster_sub_transform returns a transform instead of failing. -/
theorem c7_no_sub_index_check_counterexample :
    ¬(24 < clusterColumnCount clusterC9 *
        (clusterC9.cluster_size.y / (clusterC9.sub_size.y + clusterC9.spacing.y))) ∧
    (sheetC9.cluster_sub_transform 0 24).isSome = true := by
  constructor
  · decide
  · decide

/-- Claim C9: for the cluster with cluster_size (128,48), sub_size (16,16), no
spacing and no offset, the column count is 8 and sub-index 9 addresses row 1,
column 1, with pixel sub-rectangle origin (16,16). -/
theorem c9_concrete_grid :
    clusterColumnCount clusterC9 = 8 ∧
    9 / clusterColumnCount clusterC9 = 1 ∧
    9 % clusterColumnCount clusterC9 = 1 ∧
    sheetC9.cluster_sub_transform 0 9 =
      some (ComponentTransform.tex_transform_from_pixel_rect
        ⟨⟨16, 16⟩, ⟨16, 16⟩, ⟨128, 48⟩⟩) := by
  refine ⟨by decide, by decide, by decide, ?_⟩
  rfl

/-- Mat4::IDENTITY. -/
def mat4Identity : Mat4 := ⟨⟨1, 0, 0, 0⟩, ⟨0, 1, 0, 0⟩, ⟨0, 0, 1, 0⟩, ⟨0, 0, 0, 1⟩⟩

/-- types.rs Instance: the CPU-side record of one drawn rectangle. -/
structure Instance where
  transform : ComponentTransform
  tex_transform : ComponentTransform
  color : Vec4
deriving DecidableEq

/-- types.rs InstanceData: the packed repr(C) GPU record, field order transform,
tex_transform, color. -/
structure InstanceData where
  transform : Mat4
  tex_transform : Mat4
  color : Vec4
deriving DecidableEq

/-- Default for InstanceData in types.rs: identity matrices and opaque white. -/
def instanceDataDefault : InstanceData := ⟨mat4Identity, mat4Identity, ⟨1, 1, 1, 1⟩⟩

/-- The packed record written for an Instance, as built in add_instance and in
the recalc loop. -/
def packInstance (inst : Instance) : InstanceData :=
  ⟨inst.transform.to_mat4, inst.tex_transform.to_mat4, inst.color⟩

/-- types.rs InstanceBufferManager: the CPU list and the GPU instance buffer,
the latter modelled as the list of packed records it holds. -/
structure InstanceBufferManager where
  data : List Instance
  buffer : List InstanceData
deriving DecidableEq

/-- InstanceBufferManager::new: empty list, buffer pre-filled with max_instances
default records. -/
def InstanceBufferManager.new (max_instances : Nat) : InstanceBufferManager :=
  { data := [], buffer := List.replicate max_instances instanceDataDefault }

/-- InstanceBufferManager::add_instance: write the packed record at byte offset
data.len * size_of InstanceData (slot data.len), then push the CPU record. -/
def InstanceBufferManager.add_instance (m : InstanceBufferManager)
    (transform tex_transform : ComponentTransform) (color : Vec4) : InstanceBufferManager :=
  { data := m.data ++ [⟨transform, tex_transform, color⟩]
    buffer := m.buffer.set m.data.length ⟨transform.to_mat4, tex_transform.to_mat4, color⟩ }

/-- The per-record update of the recalc loop body: an instance carrying a pixel
rect is re-derived against the new screen extent, keeping the rect position and
size; others are untouched. -/
def recalcInstance (screen : UVec2) (inst : Instance) : Instance :=
  match inst.transform.pixel_rect with
  | some pr =>
    { inst with transform :=
        ComponentTransform.unit_square_transform_from_pixel_rect ⟨pr.xy, pr.wh, screen⟩ }
  | none => inst

/-- The buffer slot update of the recalc loop: slot i is overwritten with the
repacked record exactly when instance i carries a pixel rect. -/
def recalcSlot (screen : UVec2) (inst : Instance) (b : InstanceData) : InstanceData :=
  match inst.transform.pixel_rect with
  | some _ => packInstance (recalcInstance screen inst)
  | none => b

/-- The buffer writes performed by the recalc loop over the instance list. -/
def recalcBuffer (screen : UVec2) : List Instance → List InstanceData → List InstanceData
  | [], buf => buf
  | _ :: _, [] => []
  | inst :: rest, b :: buf => recalcSlot screen inst b :: recalcBuffer screen rest buf

/-- InstanceBufferManager::recalc_screen_instances. -/
def InstanceBufferManager.recalc_screen_instances (m : InstanceBufferManager) (screen : UVec2) :
    InstanceBufferManager :=
  { data := m.data.map (recalcInstance screen)
    buffer := recalcBuffer screen m.data m.buffer }

/-- An instance with a pixel rect is re-derived against the new extent. -/
theorem recalcInstance_of_some (screen : UVec2) (inst : Instance) (pr : PixelRect)
    (h : inst.transform.pixel_rect = some pr) :
    recalcInstance screen inst =
      { inst with transform :=
          ComponentTransform.unit_square_transform_from_pixel_rect ⟨pr.xy, pr.wh, screen⟩ } := by
  rw [recalcInstance, h]

/-- An instance without a pixel rect is untouched by the recalc loop body. -/
theorem recalcInstance_of_none (screen : UVec2) (inst : Instance)
    (h : inst.transform.pixel_rect = none) : recalcInstance screen inst = inst := by
  rw [recalcInstance, h]

/-- After one re-derivation the cached rect holds the new screen extent. -/
theorem recalcInstance_pixel_rect (screen : UVec2) (inst : Instance) (pr : PixelRect)
    (h : inst.transform.pixel_rect = some pr) :
    (recalcInstance screen inst).transform.pixel_rect = some ⟨pr.xy, pr.wh, screen⟩ := by
  rw [recalcInstance_of_some screen inst pr h]
  rfl

/-- Re-deriving twice against the same extent is the same as once. -/
theorem recalcInstance_idem (screen : UVec2) (inst : Instance) :
    recalcInstance screen (recalcInstance screen inst) = recalcInstance screen inst := by
  rcases h : inst.transform.pixel_rect with _ | pr
  · rw [recalcInstance_of_none screen inst h, recalcInstance_of_none screen inst h]
  · rw [recalcInstance_of_some screen inst pr h]
    rfl

/-- Slot update when the instance carries a pixel rect. -/
theorem recalcSlot_of_some (screen : UVec2) (inst : Instance) (b : InstanceData)
    (pr : PixelRect) (h : inst.transform.pixel_rect = some pr) :
    recalcSlot screen inst b = packInstance (recalcInstance screen inst) := by
  rw [recalcSlot, h]

/-- Slot update when the instance carries no pixel rect. -/
theorem recalcSlot_of_none (screen : UVec2) (inst : Instance) (b : InstanceData)
    (h : inst.transform.pixel_rect = none) : recalcSlot screen inst b = b := by
  rw [recalcSlot, h]

/-- Running the buffer pass a second time with the same extent changes nothing. -/
theorem recalcBuffer_idem (screen : UVec2) :
    ∀ (data : List Instance) (buf : List InstanceData),
      recalcBuffer screen (data.map (recalcInstance screen)) (recalcBuffer screen data buf) =
        recalcBuffer screen data buf
  | [], _ => rfl
  | _ :: _, [] => rfl
  | inst :: rest, b :: buf => by
    rw [List.map_cons, recalcBuffer, recalcBuffer]
    refine congrArg₂ _ ?_ (recalcBuffer_idem screen rest buf)
    rcases h : inst.transform.pixel_rect with _ | pr
    · rw [recalcInstance_of_none screen inst h, recalcSlot_of_none screen inst _ h,
        recalcSlot_of_none screen inst _ h]
    · rw [recalcSlot_of_some screen inst b pr h,
        recalcSlot_of_some screen (recalcInstance screen inst) _ ⟨pr.xy, pr.wh, screen⟩
          (recalcInstance_pixel_rect screen inst pr h),
        recalcInstance_idem]

/-- Buffer slots of instances without a pixel rect keep their bytes. -/
theorem recalcBuffer_get_of_none (screen : UVec2) :
    ∀ (data : List Instance) (buf : List InstanceData) (i : Nat) (inst : Instance),
      data.get? i = some inst → inst.transform.pixel_rect = none →
      (recalcBuffer screen data buf).get? i = buf.get? i
  | [], _, i, _, h, _ => by simp at h
  | _ :: _, [], i, _, _, _ => rfl
  | inst0 :: rest, b :: buf, 0, inst, h, hn => by
    have : inst0 = inst := by simpa using h
    subst this
    rw [recalcBuffer, recalcSlot_of_none screen inst0 b hn]
    rfl
  | inst0 :: rest, b :: buf, i + 1, inst, h, hn => by
    rw [recalcBuffer]
    exact recalcBuffer_get_of_none screen rest buf i inst (by simpa using h) hn

/-- Buffer slots of instances with a pixel rect receive the repacked record. -/
theorem recalcBuffer_get_of_some (screen : UVec2) :
    ∀ (data : List Instance) (buf : List InstanceData) (i : Nat) (inst : Instance)
      (pr : PixelRect), data.get? i = some inst → inst.transform.pixel_rect = some pr →
      i < buf.length →
      (recalcBuffer screen data buf).get? i = some (packInstance (recalcInstance screen inst))
  | [], _, i, _, _, h, _, _ => by simp at h
  | _ :: _, [], i, _, _, _, _, hlen => by simp at hlen
  | inst0 :: rest, b :: buf, 0, inst, pr, h, hs, _ => by
    have : inst0 = inst := by simpa using h
    subst this
    rw [recalcBuffer, recalcSlot_of_some screen inst0 b pr hs]
    rfl
  | inst0 :: rest, b :: buf, i + 1, inst, pr, h, hs, hlen => by
    rw [recalcBuffer]
    exact recalcBuffer_get_of_some screen rest buf i inst pr (by simpa using h) hs
      (by simpa using hlen)

/-- Buffer slots beyond the instance list keep their bytes. -/
theorem recalcBuffer_get_of_ge (screen : UVec2) :
    ∀ (data : List Instance) (buf : List InstanceData) (j : Nat),
      data.length ≤ j → (recalcBuffer screen data buf).get? j = buf.get? j
  | [], _, _, _ => rfl
  | _ :: _, [], j, _ => rfl
  | inst0 :: rest, b :: buf, j + 1, h => by
    rw [recalcBuffer]
    exact recalcBuffer_get_of_ge screen rest buf j (by simpa using h)
  | inst0 :: rest, b :: buf, 0, h => by simp at h

/-- Re-running the whole recalc with the same extent is the identity on the
already recalculated manager. -/
theorem recalc_screen_instances_idem (m : InstanceBufferManager) (screen : UVec2) :
    (m.recalc_screen_instances screen).recalc_screen_instances screen =
      m.recalc_screen_instances screen := by
  have hd : List.map (recalcInstance screen) (List.map (recalcInstance screen) m.data) =
      List.map (recalcInstance screen) m.data := by
    rw [List.map_map]
    exact List.map_congr_left fun a _ => recalcInstance_idem screen a
  simp only [InstanceBufferManager.recalc_screen_instances]
  rw [hd, recalcBuffer_idem screen m.data m.buffer]

/-- Updating a slot in range is observable at that slot. -/
theorem get_set_self {α : Type} : ∀ (l : List α) (i : Nat) (v : α), i < l.length →
    (l.set i v).get? i = some v
  | [], _, _, h => by simp at h
  | _ :: _, 0, _, _ => rfl
  | a :: l, i + 1, v, h => get_set_self l i v (by simpa using h)

/-- The record appended at the end of the list is at index length. -/
theorem get_append_length {α : Type} : ∀ (l : List α) (x : α), (l ++ [x]).get? l.length = some x
  | [], _ => rfl
  | _ :: l, x => get_append_length l x

/-- Claim C6: an instance added from pixel rect R against extent E, then
recalculated with the unchanged extent E, reproduces the original transform and
the original packed buffer record exactly; and recalculating twice in a row with
the same extent produces identical buffer bytes both times. -/
theorem c6_recalc_round_trip (m : InstanceBufferManager) (tex : ComponentTransform)
    (color : Vec4) (R : PixelRect) (E : UVec2) (hE : R.extent = E)
    (hcap : m.data.length < m.buffer.length) :
    ((m.add_instance (ComponentTransform.unit_square_transform_from_pixel_rect R) tex
        color).recalc_screen_instances E).data.get? m.data.length =
      some ⟨ComponentTransform.unit_square_transform_from_pixel_rect R, tex, color⟩ ∧
    ((m.add_instance (ComponentTransform.unit_square_transform_from_pixel_rect R) tex
        color).recalc_screen_instances E).buffer.get? m.data.length =
      (m.add_instance (ComponentTransform.unit_square_transform_from_pixel_rect R) tex
        color).buffer.get? m.data.length ∧
    (((m.add_instance (ComponentTransform.unit_square_transform_from_pixel_rect R) tex
        color).recalc_screen_instances E).recalc_screen_instances E).buffer =
      ((m.add_instance (ComponentTransform.unit_square_transform_from_pixel_rect R) tex
        color).recalc_screen_instances E).buffer := by
  subst hE
  have hini : recalcInstance R.extent
      (⟨ComponentTransform.unit_square_transform_from_pixel_rect R, tex, color⟩ : Instance) =
      ⟨ComponentTransform.unit_square_transform_from_pixel_rect R, tex, color⟩ := by
    rw [recalcInstance_of_some R.extent _ R rfl]
  refine ⟨?_, ?_, ?_⟩
  · show (List.map (recalcInstance R.extent)
        (m.data ++
          [⟨ComponentTransform.unit_square_transform_from_pixel_rect R, tex, color⟩])).get?
        m.data.length = _
    rw [List.get?_map, get_append_length]
    exact congrArg some hini
  · show (recalcBuffer R.extent
        (m.data ++ [⟨ComponentTransform.unit_square_transform_from_pixel_rect R, tex, color⟩])
        (m.buffer.set m.data.length
          ⟨(ComponentTransform.unit_square_transform_from_pixel_rect R).to_mat4,
            tex.to_mat4, color⟩)).get? m.data.length = _
    rw [recalcBuffer_get_of_some R.extent _ _ m.data.length _ R (get_append_length m.data _)
        rfl (by simpa using hcap), hini]
    show _ = (m.buffer.set m.data.length
        ⟨(ComponentTransform.unit_square_transform_from_pixel_rect R).to_mat4,
          tex.to_mat4, color⟩).get? m.data.length
    rw [get_set_self m.buffer m.data.length _ hcap]
    rfl
  · exact congrArg InstanceBufferManager.buffer
      (recalc_screen_instances_idem
        (m.add_instance (ComponentTransform.unit_square_transform_from_pixel_rect R) tex color)
        R.extent)

/-- Pixel rect used by the C6 and C10 witnesses. -/
def rectC6 : PixelRect := ⟨⟨1, 1⟩, ⟨2, 2⟩, ⟨4, 4⟩⟩

/-- Witness for C6 at a concrete manager of capacity 2 with one added instance. -/
theorem c6_recalc_round_trip_witness :
    rectC6.extent = (⟨4, 4⟩ : UVec2) ∧
    (InstanceBufferManager.new 2).data.length < (InstanceBufferManager.new 2).buffer.length ∧
    ((((InstanceBufferManager.new 2).add_instance
        (ComponentTransform.unit_square_transform_from_pixel_rect rectC6)
        componentTransformDefault ⟨1, 1, 1, 1⟩).recalc_screen_instances ⟨4, 4⟩).data.get?
        (InstanceBufferManager.new 2).data.length =
      some ⟨ComponentTransform.unit_square_transform_from_pixel_rect rectC6,
        componentTransformDefault, ⟨1, 1, 1, 1⟩⟩ ∧
    (((InstanceBufferManager.new 2).add_instance
        (ComponentTransform.unit_square_transform_from_pixel_rect rectC6)
        componentTransformDefault ⟨1, 1, 1, 1⟩).recalc_screen_instances ⟨4, 4⟩).buffer.get?
        (InstanceBufferManager.new 2).data.length =
      ((InstanceBufferManager.new 2).add_instance
        (ComponentTransform.unit_square_transform_from_pixel_rect rectC6)
        componentTransformDefault ⟨1, 1, 1, 1⟩).buffer.get?
        (InstanceBufferManager.new 2).data.length ∧
    ((((InstanceBufferManager.new 2).add_instance
        (ComponentTransform.unit_square_transform_from_pixel_rect rectC6)
        componentTransformDefault ⟨1, 1, 1, 1⟩).recalc_screen_instances
        ⟨4, 4⟩).recalc_screen_instances ⟨4, 4⟩).buffer =
      (((InstanceBufferManager.new 2).add_instance
        (ComponentTransform.unit_square_transform_from_pixel_rect rectC6)
        componentTransformDefault ⟨1, 1, 1, 1⟩).recalc_screen_instances ⟨4, 4⟩).buffer) :=
  ⟨rfl, by decide,
    c6_recalc_round_trip (InstanceBufferManager.new 2) componentTransformDefault ⟨1, 1, 1, 1⟩
      rectC6 ⟨4, 4⟩ rfl (by decide)⟩

/-- Claim C10: one recalc pass keeps the cached rect position and size while
replacing only its extent, never touches the texture transform or the color, and
leaves instances without a cached rect fully unchanged on the CPU list and in the
buffer, as well as every buffer slot beyond the instance list. -/
theorem c10_recalc_preservation (m : InstanceBufferManager) (screen : UVec2) (i : Nat)
    (inst : Instance) (h : m.data.get? i = some inst) :
    (∀ pr, inst.transform.pixel_rect = some pr →
      (m.recalc_screen_instances screen).data.get? i =
        some ⟨ComponentTransform.unit_square_transform_from_pixel_rect ⟨pr.xy, pr.wh, screen⟩,
          inst.tex_transform, inst.color⟩) ∧
    (inst.transform.pixel_rect = none →
      (m.recalc_screen_instances screen).data.get? i = some inst ∧
      (m.recalc_screen_instances screen).buffer.get? i = m.buffer.get? i) ∧
    (∀ j, m.data.length ≤ j →
      (m.recalc_screen_instances screen).buffer.get? j = m.buffer.get? j) := by
  refine ⟨?_, ?_, ?_⟩
  · intro pr hpr
    show (List.map (recalcInstance screen) m.data).get? i = _
    rw [List.get?_map, h]
    show some (recalcInstance screen inst) = _
    rw [recalcInstance_of_some screen inst pr hpr]
  · intro hn
    constructor
    · show (List.map (recalcInstance screen) m.data).get? i = _
      rw [List.get?_map, h]
      show some (recalcInstance screen inst) = _
      rw [recalcInstance_of_none screen inst hn]
    · exact recalcBuffer_get_of_none screen m.data m.buffer i inst h hn
  · intro j hj
    exact recalcBuffer_get_of_ge screen m.data m.buffer j hj

/-- The one-instance manager used by the C10 witness. -/
def mC10 : InstanceBufferManager :=
  (InstanceBufferManager.new 2).add_instance
    (ComponentTransform.unit_square_transform_from_pixel_rect rectC6)
    componentTransformDefault ⟨1, 1, 1, 1⟩

/-- The instance stored at slot 0 of mC10. -/
def instC10 : Instance :=
  ⟨ComponentTransform.unit_square_transform_from_pixel_rect rectC6,
    componentTransformDefault, ⟨1, 1, 1, 1⟩⟩

/-- Witness for C10 at the concrete manager mC10, slot 0, new extent (8,8). -/
theorem c10_recalc_preservation_witness :
    mC10.data.get? 0 = some instC10 ∧
    ((∀ pr, instC10.transform.pixel_rect = some pr →
      (mC10.recalc_screen_instances ⟨8, 8⟩).data.get? 0 =
        some ⟨ComponentTransform.unit_square_transform_from_pixel_rect
            ⟨pr.xy, pr.wh, ⟨8, 8⟩⟩, instC10.tex_transform, instC10.color⟩) ∧
    (instC10.transform.pixel_rect = none →
      (mC10.recalc_screen_instances ⟨8, 8⟩).data.get? 0 = some instC10 ∧
      (mC10.recalc_screen_instances ⟨8, 8⟩).buffer.get? 0 = mC10.buffer.get? 0) ∧
    (∀ j, mC10.data.length ≤ j →
      (mC10.recalc_screen_instances ⟨8, 8⟩).buffer.get? j = mC10.buffer.get? j)) :=
  ⟨rfl, c10_recalc_preservation mC10 ⟨8, 8⟩ 0 instC10 rfl⟩

/-- Column-major f32 words of a Mat4 as laid out in memory: 16 words, 64 bytes. -/
def mat4Words (m : Mat4) : List ℚ :=
  [m.xAxis.x, m.xAxis.y, m.xAxis.z, m.xAxis.w,
   m.yAxis.x, m.yAxis.y, m.yAxis.z, m.yAxis.w,
   m.zAxis.x, m.zAxis.y, m.zAxis.z, m.zAxis.w,
   m.wAxis.x, m.wAxis.y, m.wAxis.z, m.wAxis.w]

/-- The f32 words of a Vec4: 4 words, 16 bytes. -/
def vec4Words (v : Vec4) : List ℚ := [v.x, v.y, v.z, v.w]

/-- The packed repr(C) InstanceData as 4-byte f32 words, in declaration order
transform, tex_transform, color, with no padding. -/
def instanceDataWords (d : InstanceData) : List ℚ :=
  mat4Words d.transform ++ mat4Words d.tex_transform ++ vec4Words d.color

/-- The words found at a byte range of the packed record. -/
def wordsAt (d : InstanceData) (byteOffset byteLen : Nat) : List ℚ :=
  ((instanceDataWords d).drop (byteOffset / 4)).take (byteLen / 4)

/-- size_of InstanceData: two mat4 of 64 bytes each and one vec4 of 16 bytes. -/
def instanceDataSize : Nat := 64 + 64 + 16

/-- One per-instance vertex attribute of UNIT_SQUARE_BUFFER_LAYOUT slot 1: byte
offset and shader location, format Float32x4 (16 bytes). -/
structure VertexAttributeM where
  offset : Nat
  shader_location : Nat
deriving DecidableEq

/-- The per-instance attribute list of UNIT_SQUARE_BUFFER_LAYOUT slot 1: the four
transform columns at locations 5 to 8 and offsets 0 to 48, the four texture
transform columns at locations 9 to 12 and offsets 64 to 112, and the color at
location 13, offset 128; array stride size_of InstanceData, stepped per
instance. -/
def unitSquareInstanceAttributes : List VertexAttributeM :=
  [⟨0, 5⟩, ⟨16, 6⟩, ⟨32, 7⟩, ⟨48, 8⟩,
   ⟨64, 9⟩, ⟨80, 10⟩, ⟨96, 11⟩, ⟨112, 12⟩,
   ⟨128, 13⟩]

/-- A record whose two matrices differ, to separate the two layout orders. -/
def instanceDataC5 : InstanceData :=
  ⟨⟨⟨2, 0, 0, 0⟩, ⟨0, 2, 0, 0⟩, ⟨0, 0, 1, 0⟩, ⟨5, 7, 0, 1⟩⟩, mat4Identity, ⟨1, 0, 0, 1⟩⟩

/-- Counterexample to C5 as stated: bytes 0 to 63 of the packed record hold the
transform, not the uv (texture) transform. -/
theorem c5_uv_first_counterexample :
    wordsAt instanceDataC5 0 64 ≠ mat4Words instanceDataC5.tex_transform := by
  norm_num [wordsAt, instanceDataWords, mat4Words, vec4Words, instanceDataC5, mat4Identity]

/-- Claim C5 (amended): the packed per-instance record is 144 bytes with 16-byte
alignment, laid out as mat4 transform at bytes 0-63, mat4 uv (texture) transform
at bytes 64-127 and vec4 color at bytes 128-143, and the per-instance vertex
attributes describe exactly these offsets to the shader. -/
theorem c5_record_layout (d : InstanceData) :
    instanceDataSize = 144 ∧
    instanceDataSize % 16 = 0 ∧
    (instanceDataWords d).length * 4 = instanceDataSize ∧
    wordsAt d 0 64 = mat4Words d.transform ∧
    wordsAt d 64 64 = mat4Words d.tex_transform ∧
    wordsAt d 128 16 = vec4Words d.color ∧
    unitSquareInstanceAttributes.map (fun a => (a.shader_location, a.offset)) =
      [(5, 0), (6, 16), (7, 32), (8, 48), (9, 64), (10, 80), (11, 96), (12, 112), (13, 128)] :=
  ⟨rfl, rfl, rfl, rfl, rfl, rfl, rfl⟩

namespace Geo

/-- geo.rs PixelRect: f32 fields, with the reference extent field named screen. -/
structure PixelRect where
  xy : Vec2
  wh : Vec2
  screen : Vec2
deriving DecidableEq

/-- geo.rs ComponentTransform. -/
structure ComponentTransform where
  pixel_rect : Option PixelRect
  location : Vec3
  rotation : Quat
  scale : Vec3
deriving DecidableEq

/-- geo.rs ComponentTransform::pixel_rect_to_screen_transform. -/
def pixel_rect_to_screen_transform (pixel_rect : PixelRect) : ComponentTransform :=
  { pixel_rect := some pixel_rect
    location := ⟨(pixel_rect.xy.x / pixel_rect.screen.x) * 2 - 1,
      1 - (pixel_rect.xy.y / pixel_rect.screen.y) * 2, 0⟩
    rotation := quatIdentity
    scale := ⟨(pixel_rect.wh.x / pixel_rect.screen.x) * 2,
      (pixel_rect.wh.y / pixel_rect.screen.y) * 2, 1⟩ }

/-- geo.rs Instance: transform and color, no texture transform. -/
structure Instance where
  transform : ComponentTransform
  color : Vec4
deriving DecidableEq

/-- geo.rs InstanceData: packed record, mat4 transform then vec4 color. -/
structure InstanceData where
  transform : Mat4
  color : Vec4
deriving DecidableEq

/-- The packed record written for a geo.rs instance. -/
def packInstance (inst : Instance) : InstanceData :=
  ⟨Mat4.fromScaleRotationTranslation inst.transform.scale inst.transform.rotation
    inst.transform.location, inst.color⟩

/-- geo.rs InstanceBufferManager. -/
structure InstanceBufferManager where
  data : List Instance
  buffer : List InstanceData
deriving DecidableEq

/-- geo.rs InstanceBufferManager::add_instance. -/
def InstanceBufferManager.add_instance (m : InstanceBufferManager)
    (transform : ComponentTransform) (color : Vec4) : InstanceBufferManager :=
  { data := m.data ++ [⟨transform, color⟩]
    buffer := m.buffer.set m.data.length (packInstance ⟨transform, color⟩) }

/-- The recalc loop body of geo.rs: re-derive an instance that carries a pixel
rect against the new screen size. -/
def recalcInstance (screen : Vec2) (inst : Instance) : Instance :=
  match inst.transform.pixel_rect with
  | some pr => { inst with transform := pixel_rect_to_screen_transform ⟨pr.xy, pr.wh, screen⟩ }
  | none => inst

/-- The buffer slot update of the geo.rs recalc loop. -/
def recalcSlot (screen : Vec2) (inst : Instance) (b : InstanceData) : InstanceData :=
  match inst.transform.pixel_rect with
  | some _ => packInstance (recalcInstance screen inst)
  | none => b

/-- The buffer writes of the geo.rs recalc loop over the instance list. -/
def recalcBuffer (screen : Vec2) : List Instance → List InstanceData → List InstanceData
  | [], buf => buf
  | _ :: _, [] => []
  | inst :: rest, b :: buf => recalcSlot screen inst b :: recalcBuffer screen rest buf

/-- geo.rs InstanceBufferManager::recalc_screen_instances. -/
def InstanceBufferManager.recalc_screen_instances (m : InstanceBufferManager) (screen : Vec2) :
    InstanceBufferManager :=
  { data := m.data.map (recalcInstance screen)
    buffer := recalcBuffer screen m.data m.buffer }

/-- geo.rs RenderPipelineRecord, reduced to its observable content: the shader
path, and a counter of how many times reload_shader has recreated the shader
module and render pipeline of this group. -/
structure RenderPipelineRecord where
  shader_path : String
  rebuild_count : Nat
deriving DecidableEq

/-- geo.rs GeoInstances: one render group with its uniforms and instance store;
the static quad vertex and index buffers and the bind group are constants and
omitted. -/
structure GeoInstances where
  render_pipeline_record : RenderPipelineRecord
  view_matrix_uniform : Mat4
  screen_size_uniform : Vec2
  instance_buffer_manager : InstanceBufferManager
deriving DecidableEq

/-- geo.rs GeoManager (device handle and target format omitted). -/
structure GeoManager where
  instance_groups : List GeoInstances
deriving DecidableEq

/-- geo.rs GeoManager::update_view: recompute the constant orthographic
projection and write the view-matrix and screen-size uniforms of every group.
The instance stores are not touched. -/
def GeoManager.update_view (gm : GeoManager) (width height : Nat) : GeoManager :=
  { instance_groups := gm.instance_groups.map fun ig =>
      { ig with
        view_matrix_uniform := Mat4.orthographicLh (-1) 1 (-1) 1 (-1) 1
        screen_size_uniform := ⟨(width : ℚ), (height : ℚ)⟩ } }

/-- geo.rs GeoManager::reload_shader: every group whose shader path equals the
given path has its shader module and render pipeline rebuilt. -/
def GeoManager.reload_shader (gm : GeoManager) (shader_path : String) : GeoManager :=
  { instance_groups := gm.instance_groups.map fun ig =>
      if ig.render_pipeline_record.shader_path = shader_path then
        { ig with render_pipeline_record :=
            { ig.render_pipeline_record with
                rebuild_count := ig.render_pipeline_record.rebuild_count + 1 } }
      else ig }

end Geo

/-- window.rs FileWatcherEntry: a watched path and the recorded modification
time (SystemTime modelled as a natural number); the action is always
ReloadShader. -/
structure FileWatcherEntry where
  path : String
  last_modified : Nat
deriving DecidableEq

/-- window.rs FileWatcher. -/
structure FileWatcher where
  entries : List FileWatcherEntry
deriving DecidableEq

/-- window.rs Context, restricted to the state the update and resize paths
touch: the surface configuration size, the geometry manager and the watcher. -/
structure Context where
  config_width : Nat
  config_height : Nat
  geos : Geo.GeoManager
  file_watcher : FileWatcher
deriving DecidableEq

/-- window.rs Context::check_watched_files, one poll. mtime gives the file
modification times observed by stat during this poll. For every entry whose file
time is strictly newer than the recorded one, reload_shader runs on the geometry
manager; the entries, in particular their recorded times, are never written. -/
def Context.check_watched_files (c : Context) (mtime : String → Nat) : Context :=
  { c with
    geos := c.file_watcher.entries.foldl
        (fun geos fwe =>
          if fwe.last_modified < mtime fwe.path then geos.reload_shader fwe.path else geos)
        c.geos }

/-- window.rs Context::resize: store the new size in the surface configuration,
reconfigure the surface, and have the geometry manager update the view
uniforms. -/
def Context.resize (c : Context) (width height : Nat) : Context :=
  { c with
    config_width := width
    config_height := height
    geos := c.geos.update_view width height }

/-- The watched entry of the C3 scenario, recorded at time 0. -/
def entryC3 : FileWatcherEntry := ⟨"shaders/shader.wgsl", 0⟩

/-- The single render group of the C3 scenario, using the watched shader. -/
def groupC3 : Geo.GeoInstances := ⟨⟨"shaders/shader.wgsl", 0⟩, mat4Identity, ⟨800, 600⟩, ⟨[], []⟩⟩

/-- The C3 context: one group, one watched entry. -/
def ctxC3 : Context := ⟨800, 600, ⟨[groupC3]⟩, ⟨[entryC3]⟩⟩

/-- The observed modification times of the C3 scenario: the file was touched once
at time 5, after the recorded time 0, and never again. -/
def mtimeC3 : String → Nat := fun _ => 5

/-- Claim C3 evaluated at the failing input: after one modification, the first
poll rebuilds the matching group once, but the second poll with no further
modification rebuilds it again (2 rebuilds in total instead of 1) because the
recorded time is never updated and stays equal to the original entry. -/
theorem c3_rebuild_every_poll :
    (ctxC3.check_watched_files mtimeC3).geos.instance_groups.map
      (fun g => g.render_pipeline_record.rebuild_count) = [1] ∧
    ((ctxC3.check_watched_files mtimeC3).check_watched_files mtimeC3).geos.instance_groups.map
      (fun g => g.render_pipeline_record.rebuild_count) = [2] ∧
    ((ctxC3.check_watched_files mtimeC3).check_watched_files mtimeC3).file_watcher.entries =
      ctxC3.file_watcher.entries :=
  ⟨rfl, rfl, rfl⟩

/-- The instance store of the C4 scenario: one instance derived from the pixel
rect (0,0) size (10,10) against extent (100,100), with its packed record. -/
def storeC4 : Geo.InstanceBufferManager :=
  ⟨[⟨Geo.pixel_rect_to_screen_transform ⟨⟨0, 0⟩, ⟨10, 10⟩, ⟨100, 100⟩⟩, ⟨0, 0, 0, 1⟩⟩],
   [Geo.packInstance ⟨Geo.pixel_rect_to_screen_transform ⟨⟨0, 0⟩, ⟨10, 10⟩, ⟨100, 100⟩⟩,
      ⟨0, 0, 0, 1⟩⟩]⟩

/-- The single render group of the C4 scenario. -/
def groupC4 : Geo.GeoInstances := ⟨⟨"s.wgsl", 0⟩, mat4Identity, ⟨100, 100⟩, storeC4⟩

/-- The C4 context before the resize. -/
def ctxC4 : Context := ⟨100, 100, ⟨[groupC4]⟩, ⟨[]⟩⟩

/-- Counterexample to C4 as stated: resizing from (100,100) to (200,100) leaves
every instance store unchanged, and the unchanged store differs from what the
per-instance re-derivation against the new extent would produce, so resize does
not invoke recalc on the stores. -/
theorem c4_no_recalc_counterexample :
    (ctxC4.resize 200 100).geos.instance_groups.map (fun g => g.instance_buffer_manager) =
      [storeC4] ∧
    [storeC4] ≠ ctxC4.geos.instance_groups.map
      (fun g => g.instance_buffer_manager.recalc_screen_instances ⟨200, 100⟩) := by
  refine ⟨rfl, ?_⟩
  norm_num [ctxC4, groupC4, storeC4, Geo.InstanceBufferManager.recalc_screen_instances,
    Geo.recalcBuffer, Geo.recalcSlot, Geo.recalcInstance, Geo.pixel_rect_to_screen_transform,
    Geo.packInstance]

/-- The value of the constant projection written on every resize. -/
theorem orthographicLh_unit_cube :
    Mat4.orthographicLh (-1) 1 (-1) 1 (-1) 1 =
      ⟨⟨1, 0, 0, 0⟩, ⟨0, 1, 0, 0⟩, ⟨0, 0, 1 / 2, 0⟩, ⟨0, 0, 1 / 2, 1⟩⟩ := by
  norm_num [Mat4.orthographicLh]

/-- Claim C4 (amended): resize stores the new size in the surface configuration,
recomputes the projection (the constant orthographic matrix below), and writes
the view-matrix and screen-size uniforms of every render group before returning;
it does not invoke the per-instance screen re-derivation on any group's instance
store, whose records and buffer bytes are left unchanged, and it leaves the file
watcher alone. -/
theorem c4_resize_updates_uniforms_only (c : Context) (w h : Nat) (i : Nat)
    (ig : Geo.GeoInstances) (hg : c.geos.instance_groups.get? i = some ig) :
    (c.resize w h).config_width = w ∧
    (c.resize w h).config_height = h ∧
    (c.resize w h).geos.instance_groups.get? i =
      some { ig with
        view_matrix_uniform := ⟨⟨1, 0, 0, 0⟩, ⟨0, 1, 0, 0⟩, ⟨0, 0, 1 / 2, 0⟩, ⟨0, 0, 1 / 2, 1⟩⟩
        screen_size_uniform := ⟨(w : ℚ), (h : ℚ)⟩ } ∧
    (c.resize w h).file_watcher = c.file_watcher := by
  refine ⟨rfl, rfl, ?_, rfl⟩
  have h3 : (c.resize w h).geos.instance_groups.get? i =
      Option.map (fun ig : Geo.GeoInstances =>
        { ig with
          view_matrix_uniform := Mat4.orthographicLh (-1) 1 (-1) 1 (-1) 1
          screen_size_uniform := (⟨(w : ℚ), (h : ℚ)⟩ : Vec2) })
        (c.geos.instance_groups.get? i) :=
    List.get?_map _ _ _
  rw [h3, hg]
  exact congrArg some (by simp only [orthographicLh_unit_cube])

/-- Witness for the amended C4 at the concrete context ctxC4. -/
theorem c4_resize_updates_uniforms_only_witness :
    ctxC4.geos.instance_groups.get? 0 = some groupC4 ∧
    ((ctxC4.resize 200 100).config_width = 200 ∧
    (ctxC4.resize 200 100).config_height = 100 ∧
    (ctxC4.resize 200 100).geos.instance_groups.get? 0 =
      some { groupC4 with
        view_matrix_uniform := ⟨⟨1, 0, 0, 0⟩, ⟨0, 1, 0, 0⟩, ⟨0, 0, 1 / 2, 0⟩, ⟨0, 0, 1 / 2, 1⟩⟩
        screen_size_uniform := ⟨(200 : ℚ), (100 : ℚ)⟩ } ∧
    (ctxC4.resize 200 100).file_watcher = ctxC4.file_watcher) :=
  ⟨rfl, c4_resize_updates_uniforms_only ctxC4 200 100 0 groupC4 rfl⟩

end Virae
